import Mathlib

/-!
Verification development for the finance-manager API.

The goal controller (createGoal, updateGoal, getGoalStats, addFundToGoal) is embedded
from src/routers/notificationRoute.js.  Monetary amounts are integers (JS numbers are
exact on the integral values the program's validators and tests exercise; percentages
are computed in exact rational arithmetic), persistence is a list of goal documents,
and the external collaborators (currency conversion, email) are explicit parameters
and an effect trace.
-/

namespace FinanceMgr

/-- A goal document.  Fields follow the data model (§3): amounts are stored in base
currency, `status` is the string stored in the document. -/
structure Goal where
  id : Nat
  userId : Nat
  name : String
  targetAmount : ℤ
  currentAmount : ℤ
  status : String
  deadline : Option Nat := none
deriving DecidableEq, Repr

/-- Request body of PATCH /goals/:id/fund, as seen after JSON parsing: either field
may be absent. -/
structure FundBody where
  amount : Option ℤ
  currency : Option String
deriving DecidableEq, Repr

/-- Externally observable effects of a controller run, in program order: a currency
conversion call, the two goal lookups, the completion email, and document saves. -/
inductive Effect where
  | convert (amount : ℤ) (currency : Option String)
  | findSavingsGoal (userId : Nat)
  | findGoal (id userId : Nat)
  | email (userId : Nat) (subject : String)
  | save (g : Goal)
deriving DecidableEq, Repr

/-- Result of addFundToGoal, mirroring the JSON responses of the controller. -/
inductive FundResult where
  | invalidAmount
  | savingsGoalNotFound
  | insufficientFunds (savingsGoalCurrentAmount requestedAmount : ℤ) (baseCurrency : String)
  | goalToFundNotFound
  | funded (fundedGoal savingsGoal : Goal) (convertedAmount : ℤ) (baseCurrency : String)
deriving DecidableEq, Repr

/-- HTTP status code attached to each result (StatusCodes.* in the source). -/
def FundResult.statusCode : FundResult → Nat
  | .invalidAmount => 400
  | .savingsGoalNotFound => 404
  | .insufficientFunds _ _ _ => 400
  | .goalToFundNotFound => 404
  | .funded _ _ _ _ => 200

/-- The `msg` field of each JSON response of addFundToGoal. -/
def FundResult.msg : FundResult → String
  | .invalidAmount => "Invalid amount. Must be greater than 0"
  | .savingsGoalNotFound => "Savings Goal not found"
  | .insufficientFunds _ _ _ => "Insufficient funds in Savings Goal"
  | .goalToFundNotFound => "Goal to fund not found"
  | .funded _ _ _ _ => "Goal funded successfully"

/-- `document.save()`: the stored document with the same id is replaced. -/
def saveGoal (g : Goal) (s : List Goal) : List Goal :=
  s.map fun x => if x.id = g.id then g else x

/-- Modelled from the spec: `fundGoalSchema` lives in src/middleware/validator.js, which
is not among the provided sources.  Per §4.1 the fund request carries a positive `amount`
and a `currency`, so the schema is modelled as requiring both. -/
def fundGoalSchemaError (b : FundBody) : Option String :=
  match b.amount with
  | none => some "amount is required"
  | some a =>
    if a ≤ 0 then some "amount must be a positive number"
    else
      match b.currency with
      | none => some "currency is required"
      | some _ => none

/-- Joi-style validate: returns the (possibly present) error together with the value. -/
def fundGoalSchemaValidate (b : FundBody) : Option String × FundBody :=
  (fundGoalSchemaError b, b)

/-- The Mongo filter `{ userId, name: "Savings Goal" }`. -/
def savingsGoalPred (userId : Nat) : Goal → Bool :=
  fun g => g.userId == userId && g.name == "Savings Goal"

/-- The Mongo filter `{ _id: id, userId }`. -/
def goalPred (id userId : Nat) : Goal → Bool :=
  fun g => g.id == id && g.userId == userId

/-- Outcome of a run of addFundToGoal: the HTTP result, the stored goals afterwards,
and the trace of external effects in order. -/
structure FundOutcome where
  result : FundResult
  state : List Goal
  effects : List Effect
deriving DecidableEq, Repr

/-- addFundToGoal from src/routers/notificationRoute.js.  `conv` stands for
`convertToBaseCurrency` and `baseCurrency` for `process.env.BASE_CURRENCY`.  The
schema validation result is destructured but its error component is never consulted;
the only guard applied is the missing-or-non-positive amount check. -/
def addFundToGoal (id userId : Nat) (body : FundBody)
    (conv : ℤ → Option String → ℤ) (baseCurrency : String) (s : List Goal) : FundOutcome :=
  let validated := fundGoalSchemaValidate body
  match validated.2.amount with
  | none => ⟨.invalidAmount, s, []⟩
  | some amount =>
    if amount ≤ 0 then ⟨.invalidAmount, s, []⟩
    else
      let convertedAmount := conv amount validated.2.currency
      match s.find? (savingsGoalPred userId) with
      | none => ⟨.savingsGoalNotFound, s,
          [.convert amount validated.2.currency, .findSavingsGoal userId]⟩
      | some savingsGoal =>
        if savingsGoal.currentAmount < convertedAmount then
          ⟨.insufficientFunds savingsGoal.currentAmount convertedAmount baseCurrency, s,
            [.convert amount validated.2.currency, .findSavingsGoal userId]⟩
        else
          match s.find? (goalPred id userId) with
          | none => ⟨.goalToFundNotFound, s,
              [.convert amount validated.2.currency, .findSavingsGoal userId,
               .findGoal id userId]⟩
          | some goalToFund =>
            let g1 : Goal := { goalToFund with
              currentAmount := goalToFund.currentAmount + convertedAmount }
            let g2 : Goal :=
              if g1.targetAmount ≤ g1.currentAmount then
                { g1 with currentAmount := g1.targetAmount, status := "Completed" }
              else g1
            let s1 : Goal := { savingsGoal with
              currentAmount := savingsGoal.currentAmount - convertedAmount }
            let s2 : Goal :=
              if s1.currentAmount ≤ 0 then
                { s1 with currentAmount := 0, status := "In Progress" }
              else s1
            ⟨.funded g2 s2 convertedAmount baseCurrency,
             saveGoal s2 (saveGoal g2 s),
             [.convert amount validated.2.currency, .findSavingsGoal userId,
              .findGoal id userId] ++
             (if g1.targetAmount ≤ g1.currentAmount then
                [.email userId "Goal Completed!"] else []) ++
             [.save g2, .save s2]⟩

/-- Request body validated by `goalSchema` (used by createGoal and updateGoal). -/
structure GoalBody where
  name : String
  targetAmount : ℤ
  deadline : Option Nat := none
  currency : String
deriving DecidableEq, Repr

/-- Modelled from the spec: `goalSchema` lives in src/middleware/validator.js, which is
not among the provided sources.  Per §3 and the unit tests it requires a name of at
least 3 characters, a positive targetAmount, and (when given) a deadline strictly in
the future. -/
def goalSchemaError (now : Nat) (b : GoalBody) : Option String :=
  if b.name.length < 3 then some "name length must be at least 3 characters long"
  else if b.targetAmount ≤ 0 then some "targetAmount must be a positive number"
  else
    match b.deadline with
    | some d => if d ≤ now then some "deadline must be greater than now" else none
    | none => none

/-- Result of updateGoal. -/
inductive UpdateResult where
  | badRequest (msg : String)
  | notFound
  | updated (g : Goal)
deriving DecidableEq, Repr

/-- updateGoal from src/routers/notificationRoute.js: the validated body is written
onto the stored document via findOneAndUpdate; currentAmount and status are not part
of the validated value, hence never touched. -/
def updateGoal (id userId now : Nat) (b : GoalBody) (s : List Goal) :
    UpdateResult × List Goal :=
  match goalSchemaError now b with
  | some e => (.badRequest e, s)
  | none =>
    match s.find? (goalPred id userId) with
    | none => (.notFound, s)
    | some g =>
      let g2 : Goal := { g with name := b.name, targetAmount := b.targetAmount,
                                deadline := b.deadline }
      (.updated g2, saveGoal g2 s)

/-- Result of createGoal. -/
inductive CreateResult where
  | badRequest (msg : String)
  | created (g : Goal)
deriving DecidableEq, Repr

/-- createGoal from src/routers/notificationRoute.js.  The target amount is converted
to base currency; the new document's currentAmount and status take the model defaults
(modelled from the spec §3: currentAmount defaults to 0, status to In Progress, since
src/models/goalModel.js is not among the provided sources). -/
def createGoal (userId newId now : Nat) (b : GoalBody)
    (conv : ℤ → Option String → ℤ) (s : List Goal) : CreateResult × List Goal :=
  match goalSchemaError now b with
  | some e => (.badRequest e, s)
  | none =>
    let convertedAmount := conv b.targetAmount (some b.currency)
    let g : Goal := { id := newId, userId := userId, name := b.name,
                      targetAmount := convertedAmount, currentAmount := 0,
                      status := "In Progress", deadline := b.deadline }
    (.created g, s ++ [g])

/-- The raw progress ratio computed by getGoalStats:
`(goal.currentAmount / goal.targetAmount) * 100`. -/
def goalProgressRaw (g : Goal) : ℚ :=
  (g.currentAmount : ℚ) / (g.targetAmount : ℚ) * 100

/-- The progress reported by getGoalStats:
`progress > 100 ? 100 : Math.round(progress)`. -/
def goalProgress (g : Goal) : ℤ :=
  if 100 < goalProgressRaw g then 100 else round (goalProgressRaw g)

/-! ### Budgets and transactions -/

/-- A budget document (§3). -/
structure Budget where
  userId : Nat
  category : String
  amount : ℤ
  duration : String
deriving DecidableEq, Repr

/-- A category entry of the Settings registry (§3). -/
structure Category where
  name : String
  ctype : String
  active : Bool
deriving DecidableEq, Repr

/-- A transaction document (§3). -/
structure Txn where
  userId : Nat
  ttype : String
  amount : ℤ
  category : String
  date : Nat
deriving DecidableEq, Repr

/-- Result of setBudget/createBudget. -/
inductive CreateBudgetResult where
  | invalidCategory
  | conflict
  | created (b : Budget)
deriving DecidableEq, Repr

/-- HTTP status of each setBudget result (tests expect 400 / 409 / 201). -/
def CreateBudgetResult.statusCode : CreateBudgetResult → Nat
  | .invalidCategory => 400
  | .conflict => 409
  | .created _ => 201

/-- Modelled from the spec: the budget controller (src/controllers/budgetController.js)
is not among the provided sources, only its unit tests.  Per §4.2 and the tests,
setBudget rejects an unknown or inactive category with 400 ("Invalid or inactive
category") and an existing (userId, category) budget with 409 ("Budget already exists
for this category."); otherwise it stores the new budget. -/
def createBudget (userId : Nat) (category : String) (amount : ℤ) (duration : String)
    (cats : List Category) (budgets : List Budget) : CreateBudgetResult × List Budget :=
  if ¬ cats.any (fun c => c.name == category && c.active) then
    (.invalidCategory, budgets)
  else if budgets.any (fun b => b.userId == userId && b.category == category) then
    (.conflict, budgets)
  else
    let b : Budget := ⟨userId, category, amount, duration⟩
    (.created b, budgets ++ [b])

/-- Number of budgets stored for a given (userId, category) pair. -/
def budgetCount (budgets : List Budget) (u : Nat) (c : String) : Nat :=
  (budgets.filter fun b => b.userId == u && b.category == c).length

/-- One entry of the recommendations response. -/
structure Recommendation where
  category : String
  budgetAmount : ℤ
  spent : ℤ
  percentage : ℤ
deriving DecidableEq, Repr

/-- Amount spent by a user in a category: sum of the expense-type transactions of that
user in that category whose date lies in the duration window. -/
def spentInCategory (userId : Nat) (category : String) (inWindow : Nat → Bool)
    (txns : List Txn) : ℤ :=
  ((txns.filter fun t =>
      t.userId == userId && t.category == category &&
      t.ttype == "expense" && inWindow t.date).map Txn.amount).sum

/-- Modelled from the spec: getBudgetRecommendations
(src/controllers/budgetController.js) is not among the provided sources.  Per §4.2
and the unit tests: for every budget owned by the user, sum that user's expense-type
transactions in the budget's category over the duration window and report
`percentage = round(spent / budget.amount * 100)`; answer NotFound (here `none`,
HTTP 404) when the user owns no budgets.  `inWindow` interprets the duration
window (weekly/monthly/yearly) as a predicate on dates. -/
def recommendations (userId : Nat) (inWindow : String → Nat → Bool)
    (budgets : List Budget) (txns : List Txn) : Option (List Recommendation) :=
  let mine := budgets.filter fun b => b.userId == userId
  if mine.isEmpty then none
  else some (mine.map fun b =>
    let spent := spentInCategory userId b.category (inWindow b.duration) txns
    ⟨b.category, b.amount, spent, round ((spent : ℚ) / (b.amount : ℚ) * 100)⟩)

/-! ### Report aggregation -/

/-- Per-category income/expense totals. -/
structure CatTotals where
  income : ℤ
  expense : ℤ
deriving DecidableEq, Repr

/-- The trends report payload. -/
structure TrendsReport where
  totalIncome : ℤ
  totalExpense : ℤ
  netBalance : ℤ
  categoryBreakdown : List (String × CatTotals)
deriving DecidableEq, Repr

/-- Totals recorded for a category in the breakdown (0/0 when absent). -/
def lookupCat (l : List (String × CatTotals)) (c : String) : CatTotals :=
  match l.find? (fun p => p.1 == c) with
  | some p => p.2
  | none => ⟨0, 0⟩

/-- Add an amount to the income or expense slot of a category, inserting the
category if it is not yet present. -/
def addToCat (l : List (String × CatTotals)) (c : String) (isIncome : Bool) (a : ℤ) :
    List (String × CatTotals) :=
  match l with
  | [] => [(c, if isIncome then ⟨a, 0⟩ else ⟨0, a⟩)]
  | (c0, t) :: rest =>
    if c0 == c then
      (c0, if isIncome then ⟨t.income + a, t.expense⟩ else ⟨t.income, t.expense + a⟩)
        :: rest
    else (c0, t) :: addToCat rest c isIncome a

/-- One step of the aggregation pass over the transactions. -/
def trendsStep (acc : TrendsReport) (t : Txn) : TrendsReport :=
  if t.ttype == "income" then
    { acc with totalIncome := acc.totalIncome + t.amount,
               categoryBreakdown := addToCat acc.categoryBreakdown t.category true t.amount }
  else
    { acc with totalExpense := acc.totalExpense + t.amount,
               categoryBreakdown := addToCat acc.categoryBreakdown t.category false t.amount }

/-- Modelled from the spec: generateReport (src/controllers/reportController.js) is not
among the provided sources.  Per §4.3 and the unit tests it partitions the user's
transactions into income/expense totals and a per-category income/expense breakdown,
with `netBalance = totalIncome - totalExpense`. -/
def trends (userId : Nat) (txns : List Txn) : TrendsReport :=
  let mine := txns.filter fun t => t.userId == userId
  let base := mine.foldl trendsStep ⟨0, 0, 0, []⟩
  { base with netBalance := base.totalIncome - base.totalExpense }

/-! ### Helper lemmas -/

theorem mem_saveGoal {x g : Goal} {s : List Goal} (h : x ∈ saveGoal g s) :
    x = g ∨ x ∈ s := by
  unfold saveGoal at h
  rcases List.mem_map.mp h with ⟨y, hy, hxy⟩
  by_cases hid : y.id = g.id
  · left
    rw [← hxy, if_pos hid]
  · right
    rw [← hxy, if_neg hid]
    exact hy

/-- What addFundToGoal computes on the success path, as one equation. -/
theorem addFundToGoal_success_eq (id userId : Nat) (body : FundBody)
    (conv : ℤ → Option String → ℤ) (baseCurrency : String) (s : List Goal)
    (a0 : ℤ) (hamount : body.amount = some a0) (hpos : 0 < a0)
    (sav : Goal) (hsav : s.find? (savingsGoalPred userId) = some sav)
    (hfunds : conv a0 body.currency ≤ sav.currentAmount)
    (g : Goal) (hg : s.find? (goalPred id userId) = some g) :
    addFundToGoal id userId body conv baseCurrency s =
      ⟨.funded
        (if g.targetAmount ≤ g.currentAmount + conv a0 body.currency then
          { g with currentAmount := g.targetAmount, status := "Completed" }
        else { g with currentAmount := g.currentAmount + conv a0 body.currency })
        (if sav.currentAmount - conv a0 body.currency ≤ 0 then
          { sav with currentAmount := 0, status := "In Progress" }
        else { sav with currentAmount := sav.currentAmount - conv a0 body.currency })
        (conv a0 body.currency) baseCurrency,
       saveGoal
        (if sav.currentAmount - conv a0 body.currency ≤ 0 then
          { sav with currentAmount := 0, status := "In Progress" }
        else { sav with currentAmount := sav.currentAmount - conv a0 body.currency })
        (saveGoal
          (if g.targetAmount ≤ g.currentAmount + conv a0 body.currency then
            { g with currentAmount := g.targetAmount, status := "Completed" }
          else { g with currentAmount := g.currentAmount + conv a0 body.currency }) s),
       [.convert a0 body.currency, .findSavingsGoal userId, .findGoal id userId] ++
       (if g.targetAmount ≤ g.currentAmount + conv a0 body.currency then
          [.email userId "Goal Completed!"] else []) ++
       [.save
          (if g.targetAmount ≤ g.currentAmount + conv a0 body.currency then
            { g with currentAmount := g.targetAmount, status := "Completed" }
          else { g with currentAmount := g.currentAmount + conv a0 body.currency }),
        .save
          (if sav.currentAmount - conv a0 body.currency ≤ 0 then
            { sav with currentAmount := 0, status := "In Progress" }
          else { sav with currentAmount := sav.currentAmount - conv a0 body.currency })]⟩ := by
  simp only [addFundToGoal, fundGoalSchemaValidate, hamount, hsav, hg,
    if_neg (not_le.mpr hpos), if_neg (not_lt.mpr hfunds)]

/-- Any run of addFundToGoal either leaves the stored goals unchanged, or is on the
success path with all its guards satisfied. -/
theorem addFundToGoal_cases (id userId : Nat) (body : FundBody)
    (conv : ℤ → Option String → ℤ) (baseCurrency : String) (s : List Goal) :
    (addFundToGoal id userId body conv baseCurrency s).state = s ∨
    ∃ a0 sav gf, body.amount = some a0 ∧ 0 < a0 ∧
      s.find? (savingsGoalPred userId) = some sav ∧
      conv a0 body.currency ≤ sav.currentAmount ∧
      s.find? (goalPred id userId) = some gf := by
  cases hb : body.amount with
  | none =>
    simp only [addFundToGoal, fundGoalSchemaValidate, hb]
    exact .inl trivial
  | some a0 =>
    by_cases h0 : a0 ≤ 0
    · simp only [addFundToGoal, fundGoalSchemaValidate, hb, if_pos h0]
      exact .inl trivial
    · cases hsav : s.find? (savingsGoalPred userId) with
      | none =>
        simp only [addFundToGoal, fundGoalSchemaValidate, hb, if_neg h0, hsav]
        exact .inl trivial
      | some sav =>
        by_cases hin : sav.currentAmount < conv a0 body.currency
        · simp only [addFundToGoal, fundGoalSchemaValidate, hb, if_neg h0, hsav, if_pos hin]
          exact .inl trivial
        · cases hgf : s.find? (goalPred id userId) with
          | none =>
            simp only [addFundToGoal, fundGoalSchemaValidate, hb, if_neg h0, hsav,
              if_neg hin, hgf]
            exact .inl trivial
          | some gf =>
            exact .inr ⟨a0, sav, gf, rfl, lt_of_not_le h0, rfl, le_of_not_lt hin, rfl⟩

/-! ### Claim C1 -/

/-- C1, counterexample: a successful fund transfer on which the conservation law
fails.  The Savings Goal holds 500 and the target goal is at 900 of 1000; funding 200
succeeds, but the cap at targetAmount destroys 100: the two goals hold 900 + 500 = 1400
before and 1000 + 300 = 1300 after. -/
theorem addFundToGoal_conservation_counterexample :
    (addFundToGoal 2 7 ⟨some 200, some "LKR"⟩ (fun a _ => a) "LKR"
      [⟨1, 7, "Savings Goal", 1000, 500, "In Progress", none⟩,
       ⟨2, 7, "Car", 1000, 900, "In Progress", none⟩]).result =
      .funded ⟨2, 7, "Car", 1000, 1000, "Completed", none⟩
        ⟨1, 7, "Savings Goal", 1000, 300, "In Progress", none⟩ 200 "LKR" ∧
    (1000 : ℤ) + 300 ≠ 900 + 500 := by decide

/-- C1 (amended): on every successful transfer of converted amount `a`, the Savings
Goal decreases by exactly `a`, the target goal increases to
`min targetAmount (currentAmount + a)`, and the sum of the two currentAmounts shrinks
by exactly `max 0 (currentAmount + a - targetAmount)` — so it is conserved exactly
when the cap at targetAmount does not bind. -/
theorem addFundToGoal_transfer_amounts (id userId : Nat) (body : FundBody)
    (conv : ℤ → Option String → ℤ) (baseCurrency : String) (s : List Goal)
    (a0 : ℤ) (hamount : body.amount = some a0) (hpos : 0 < a0)
    (sav : Goal) (hsav : s.find? (savingsGoalPred userId) = some sav)
    (hfunds : conv a0 body.currency ≤ sav.currentAmount)
    (g : Goal) (hg : s.find? (goalPred id userId) = some g) :
    ∃ f s2,
      (addFundToGoal id userId body conv baseCurrency s).result =
        .funded f s2 (conv a0 body.currency) baseCurrency ∧
      s2.currentAmount = sav.currentAmount - conv a0 body.currency ∧
      f.currentAmount = min g.targetAmount (g.currentAmount + conv a0 body.currency) ∧
      f.currentAmount + s2.currentAmount =
        g.currentAmount + sav.currentAmount -
          max 0 (g.currentAmount + conv a0 body.currency - g.targetAmount) := by
  rw [addFundToGoal_success_eq id userId body conv baseCurrency s a0 hamount hpos sav hsav
    hfunds g hg]
  refine ⟨_, _, rfl, ?_, ?_, ?_⟩
  · split_ifs with h1 <;> simp only [] <;> omega
  · split_ifs with h1 <;> simp only [] <;> omega
  · split_ifs with h1 h2 <;> simp only [] <;> omega

theorem addFundToGoal_transfer_amounts_witness :
    (0 : ℤ) < 200 ∧
    ∃ f s2,
      (addFundToGoal 2 7 ⟨some 200, some "LKR"⟩ (fun a _ => a) "LKR"
        [⟨1, 7, "Savings Goal", 1000, 500, "In Progress", none⟩,
         ⟨2, 7, "Car", 1000, 900, "In Progress", none⟩]).result =
        .funded f s2 200 "LKR" ∧
      s2.currentAmount = 500 - 200 ∧
      f.currentAmount = min 1000 (900 + 200) ∧
      f.currentAmount + s2.currentAmount = 900 + 500 - max 0 (900 + 200 - 1000) :=
  ⟨by decide,
   addFundToGoal_transfer_amounts 2 7 ⟨some 200, some "LKR"⟩ (fun a _ => a) "LKR"
     [⟨1, 7, "Savings Goal", 1000, 500, "In Progress", none⟩,
      ⟨2, 7, "Car", 1000, 900, "In Progress", none⟩]
     200 rfl (by decide)
     ⟨1, 7, "Savings Goal", 1000, 500, "In Progress", none⟩ (by decide) (by decide)
     ⟨2, 7, "Car", 1000, 900, "In Progress", none⟩ (by decide)⟩

/-! ### Claim C2 -/

/-- C2: whenever the converted amount exceeds the Savings Goal's currentAmount,
addFundToGoal answers 400 "Insufficient funds in Savings Goal" carrying the Savings
Goal balance, the requested (converted) amount and the base currency, the stored goals
are exactly as before (no partial write), and no lookup of the target goal and no save
is even attempted. -/
theorem addFundToGoal_insufficient_funds (id userId : Nat) (body : FundBody)
    (conv : ℤ → Option String → ℤ) (baseCurrency : String) (s : List Goal)
    (a0 : ℤ) (hamount : body.amount = some a0) (hpos : 0 < a0)
    (sav : Goal) (hsav : s.find? (savingsGoalPred userId) = some sav)
    (hins : sav.currentAmount < conv a0 body.currency) :
    addFundToGoal id userId body conv baseCurrency s =
      ⟨.insufficientFunds sav.currentAmount (conv a0 body.currency) baseCurrency, s,
       [.convert a0 body.currency, .findSavingsGoal userId]⟩ ∧
    (FundResult.insufficientFunds sav.currentAmount (conv a0 body.currency)
      baseCurrency).statusCode = 400 ∧
    (FundResult.insufficientFunds sav.currentAmount (conv a0 body.currency)
      baseCurrency).msg = "Insufficient funds in Savings Goal" := by
  refine ⟨?_, rfl, rfl⟩
  simp only [addFundToGoal, fundGoalSchemaValidate, hamount, hsav,
    if_neg (not_le.mpr hpos), if_pos hins]

theorem addFundToGoal_insufficient_funds_witness :
    (0 : ℤ) < 600 ∧ (500 : ℤ) < 600 ∧
    (addFundToGoal 1 7 ⟨some 600, some "LKR"⟩ (fun a _ => a) "LKR"
      [⟨1, 7, "Savings Goal", 1000, 500, "In Progress", none⟩] =
      ⟨.insufficientFunds 500 600 "LKR",
       [⟨1, 7, "Savings Goal", 1000, 500, "In Progress", none⟩],
       [.convert 600 (some "LKR"), .findSavingsGoal 7]⟩ ∧
    (FundResult.insufficientFunds 500 600 "LKR").statusCode = 400 ∧
    (FundResult.insufficientFunds 500 600 "LKR").msg =
      "Insufficient funds in Savings Goal") :=
  ⟨by decide, by decide,
   addFundToGoal_insufficient_funds 1 7 ⟨some 600, some "LKR"⟩ (fun a _ => a) "LKR"
     [⟨1, 7, "Savings Goal", 1000, 500, "In Progress", none⟩]
     600 rfl (by decide)
     ⟨1, 7, "Savings Goal", 1000, 500, "In Progress", none⟩ (by decide) (by decide)⟩

/-! ### Claim C5 -/

/-- C5: when the amount is missing or not greater than 0, addFundToGoal answers 400
("Invalid amount...") with an empty effect trace — no currency conversion, no goal
lookup, no save — and the stored goals are unchanged. -/
theorem addFundToGoal_invalid_amount_guard (id userId : Nat) (body : FundBody)
    (conv : ℤ → Option String → ℤ) (baseCurrency : String) (s : List Goal)
    (h : body.amount = none ∨ ∃ a0, body.amount = some a0 ∧ a0 ≤ 0) :
    addFundToGoal id userId body conv baseCurrency s = ⟨.invalidAmount, s, []⟩ ∧
    FundResult.invalidAmount.statusCode = 400 := by
  refine ⟨?_, rfl⟩
  rcases h with h | ⟨a0, ha, hle⟩
  · simp only [addFundToGoal, fundGoalSchemaValidate, h]
  · simp only [addFundToGoal, fundGoalSchemaValidate, ha, if_pos hle]

theorem addFundToGoal_invalid_amount_guard_witness :
    ((⟨some 0, some "LKR"⟩ : FundBody).amount = none ∨
      ∃ a0, (⟨some 0, some "LKR"⟩ : FundBody).amount = some a0 ∧ a0 ≤ 0) ∧
    (addFundToGoal 2 7 ⟨some 0, some "LKR"⟩ (fun a _ => a) "LKR"
      [⟨1, 7, "Savings Goal", 1000, 500, "In Progress", none⟩] =
      ⟨.invalidAmount, [⟨1, 7, "Savings Goal", 1000, 500, "In Progress", none⟩], []⟩ ∧
    FundResult.invalidAmount.statusCode = 400) :=
  ⟨.inr ⟨0, rfl, le_refl 0⟩,
   addFundToGoal_invalid_amount_guard 2 7 ⟨some 0, some "LKR"⟩ (fun a _ => a) "LKR"
     [⟨1, 7, "Savings Goal", 1000, 500, "In Progress", none⟩]
     (.inr ⟨0, rfl, le_refl 0⟩)⟩

/-! ### Claim C10 -/

/-- C10: addFundToGoal never consults the error component of
fundGoalSchema.validate: a body that fails schema validation but carries a positive
amount is not rejected with the 400 validation answer; the run proceeds to the
currency conversion and the Savings-Goal lookup. -/
theorem addFundToGoal_ignores_schema_error (id userId : Nat) (body : FundBody)
    (conv : ℤ → Option String → ℤ) (baseCurrency : String) (s : List Goal)
    (e : String) (a0 : ℤ)
    (he : fundGoalSchemaError body = some e)
    (hamount : body.amount = some a0) (hpos : 0 < a0) :
    (addFundToGoal id userId body conv baseCurrency s).result ≠ .invalidAmount ∧
    ∃ rest, (addFundToGoal id userId body conv baseCurrency s).effects =
      .convert a0 body.currency :: .findSavingsGoal userId :: rest := by
  cases hsav : s.find? (savingsGoalPred userId) with
  | none =>
    simp only [addFundToGoal, fundGoalSchemaValidate, hamount,
      if_neg (not_le.mpr hpos), hsav]
    exact ⟨by simp, [], rfl⟩
  | some sav =>
    by_cases hin : sav.currentAmount < conv a0 body.currency
    · simp only [addFundToGoal, fundGoalSchemaValidate, hamount,
        if_neg (not_le.mpr hpos), hsav, if_pos hin]
      exact ⟨by simp, [], rfl⟩
    · cases hgf : s.find? (goalPred id userId) with
      | none =>
        simp only [addFundToGoal, fundGoalSchemaValidate, hamount,
          if_neg (not_le.mpr hpos), hsav, if_neg hin, hgf]
        exact ⟨by simp, [.findGoal id userId], rfl⟩
      | some gf =>
        simp only [addFundToGoal, fundGoalSchemaValidate, hamount,
          if_neg (not_le.mpr hpos), hsav, if_neg hin, hgf]
        refine ⟨by simp, ?_⟩
        simp only [List.cons_append, List.append_assoc, List.nil_append]
        exact ⟨_, rfl⟩

theorem addFundToGoal_ignores_schema_error_witness :
    fundGoalSchemaError ⟨some 5, none⟩ = some "currency is required" ∧
    ((addFundToGoal 2 7 ⟨some 5, none⟩ (fun a _ => a) "LKR"
      [⟨1, 7, "Savings Goal", 1000, 500, "In Progress", none⟩]).result ≠
        .invalidAmount ∧
    ∃ rest, (addFundToGoal 2 7 ⟨some 5, none⟩ (fun a _ => a) "LKR"
      [⟨1, 7, "Savings Goal", 1000, 500, "In Progress", none⟩]).effects =
      .convert 5 none :: .findSavingsGoal 7 :: rest) :=
  ⟨by decide,
   addFundToGoal_ignores_schema_error 2 7 ⟨some 5, none⟩ (fun a _ => a) "LKR"
     [⟨1, 7, "Savings Goal", 1000, 500, "In Progress", none⟩]
     "currency is required" 5 (by decide) rfl (by decide)⟩

/-- The document produced by findOneAndUpdate: the validated body written over the
stored goal. -/
def applyGoalBody (b : GoalBody) (g0 : Goal) : Goal :=
  { g0 with name := b.name, targetAmount := b.targetAmount, deadline := b.deadline }

/-- Either updateGoal rejects (stored goals unchanged, nothing reported updated), or
it writes exactly the validated fields onto the found document. -/
theorem updateGoal_cases (id userId now : Nat) (b : GoalBody) (s : List Goal) :
    ((updateGoal id userId now b s).2 = s ∧
      ∀ g2, (updateGoal id userId now b s).1 ≠ .updated g2) ∨
    ∃ g0, s.find? (goalPred id userId) = some g0 ∧
      updateGoal id userId now b s =
        (.updated (applyGoalBody b g0), saveGoal (applyGoalBody b g0) s) := by
  cases herr : goalSchemaError now b with
  | some e =>
    simp only [updateGoal, herr]
    exact .inl ⟨trivial, fun g2 h => UpdateResult.noConfusion h⟩
  | none =>
    cases hfind : s.find? (goalPred id userId) with
    | none =>
      simp only [updateGoal, herr, hfind]
      exact .inl ⟨trivial, fun g2 h => UpdateResult.noConfusion h⟩
    | some g0 =>
      simp only [updateGoal, herr, hfind]
      exact .inr ⟨g0, rfl, rfl⟩

/-- Either createGoal rejects (stored goals unchanged), or it appends the one new
document with currentAmount 0 and status In Progress. -/
theorem createGoal_cases (userId newId now : Nat) (b : GoalBody)
    (conv : ℤ → Option String → ℤ) (s : List Goal) :
    (createGoal userId newId now b conv s).2 = s ∨
    (createGoal userId newId now b conv s).2 =
      s ++ [{ id := newId, userId := userId, name := b.name,
              targetAmount := conv b.targetAmount (some b.currency), currentAmount := 0,
              status := "In Progress", deadline := b.deadline }] := by
  cases herr : goalSchemaError now b with
  | some e =>
    simp only [createGoal, herr]
    exact .inl trivial
  | none =>
    simp only [createGoal, herr]
    exact .inr trivial

/-! ### Claim C3 -/

/-- C3, counterexample: from a store in which every goal satisfies
`status = Completed ↔ currentAmount = targetAmount`, one successful addFundToGoal
(defunding the Completed Savings Goal from 1000 down to 500 of target 1000) yields a
store with a goal whose status is still Completed although its currentAmount is below
its targetAmount. -/
theorem goal_status_iff_counterexample :
    (∀ g ∈ [(⟨1, 7, "Savings Goal", 1000, 1000, "Completed", none⟩ : Goal),
            ⟨2, 7, "Car", 2000, 0, "In Progress", none⟩],
        g.status = "Completed" ↔ g.currentAmount = g.targetAmount) ∧
    (addFundToGoal 2 7 ⟨some 500, some "LKR"⟩ (fun a _ => a) "LKR"
      [⟨1, 7, "Savings Goal", 1000, 1000, "Completed", none⟩,
       ⟨2, 7, "Car", 2000, 0, "In Progress", none⟩]).result.statusCode = 200 ∧
    ∃ g ∈ (addFundToGoal 2 7 ⟨some 500, some "LKR"⟩ (fun a _ => a) "LKR"
        [⟨1, 7, "Savings Goal", 1000, 1000, "Completed", none⟩,
         ⟨2, 7, "Car", 2000, 0, "In Progress", none⟩]).state,
      g.status = "Completed" ∧ g.currentAmount ≠ g.targetAmount := by decide

/-- C3 (amended): addFundToGoal marks the funded goal Completed exactly when its
increased currentAmount reaches targetAmount, but resets the Savings Goal to
In Progress only when its currentAmount reaches 0 — a Completed Savings Goal defunded
to a positive amount below target keeps status Completed; and updateGoal never
recomputes status (or currentAmount), even when it changes targetAmount. -/
theorem goal_status_update_rule (id userId : Nat) (body : FundBody)
    (conv : ℤ → Option String → ℤ) (baseCurrency : String) (s : List Goal)
    (a0 : ℤ) (hamount : body.amount = some a0) (hpos : 0 < a0)
    (sav : Goal) (hsav : s.find? (savingsGoalPred userId) = some sav)
    (hfunds : conv a0 body.currency ≤ sav.currentAmount)
    (g : Goal) (hg : s.find? (goalPred id userId) = some g) :
    (∃ f s2,
      (addFundToGoal id userId body conv baseCurrency s).result =
        .funded f s2 (conv a0 body.currency) baseCurrency ∧
      f.status = (if g.targetAmount ≤ g.currentAmount + conv a0 body.currency then
        "Completed" else g.status) ∧
      s2.status = (if sav.currentAmount - conv a0 body.currency ≤ 0 then
        "In Progress" else sav.status)) ∧
    (∀ (id2 userId2 now : Nat) (b : GoalBody) (s' : List Goal) (g2 : Goal),
      (updateGoal id2 userId2 now b s').1 = .updated g2 →
      ∃ g0, s'.find? (goalPred id2 userId2) = some g0 ∧
        g2.status = g0.status ∧ g2.currentAmount = g0.currentAmount ∧
        g2.targetAmount = b.targetAmount) := by
  constructor
  · rw [addFundToGoal_success_eq id userId body conv baseCurrency s a0 hamount hpos sav hsav
      hfunds g hg]
    refine ⟨_, _, rfl, ?_, ?_⟩
    · split_ifs with h1 <;> rfl
    · split_ifs with h1 <;> rfl
  · intro id2 userId2 now b s' g2 hupd
    rcases updateGoal_cases id2 userId2 now b s' with ⟨_, hno⟩ | ⟨g0, hfind, heq⟩
    · exact absurd hupd (hno g2)
    · rw [heq] at hupd
      have h2 : UpdateResult.updated (applyGoalBody b g0) = .updated g2 := hupd
      injection h2 with h3
      refine ⟨g0, hfind, ?_, ?_, ?_⟩ <;> rw [← h3] <;> rfl

theorem goal_status_update_rule_witness :
    (0 : ℤ) < 500 ∧ (500 : ℤ) ≤ 1000 ∧
    ((∃ f s2,
      (addFundToGoal 2 7 ⟨some 500, some "LKR"⟩ (fun a _ => a) "LKR"
        [⟨1, 7, "Savings Goal", 1000, 1000, "Completed", none⟩,
         ⟨2, 7, "Car", 2000, 0, "In Progress", none⟩]).result =
        .funded f s2 500 "LKR" ∧
      f.status = (if (2000 : ℤ) ≤ 0 + 500 then "Completed" else "In Progress") ∧
      s2.status = (if (1000 : ℤ) - 500 ≤ 0 then "In Progress" else "Completed")) ∧
    (∀ (id2 userId2 now : Nat) (b : GoalBody) (s' : List Goal) (g2 : Goal),
      (updateGoal id2 userId2 now b s').1 = .updated g2 →
      ∃ g0, s'.find? (goalPred id2 userId2) = some g0 ∧
        g2.status = g0.status ∧ g2.currentAmount = g0.currentAmount ∧
        g2.targetAmount = b.targetAmount)) :=
  ⟨by decide, by decide,
   goal_status_update_rule 2 7 ⟨some 500, some "LKR"⟩ (fun a _ => a) "LKR"
     [⟨1, 7, "Savings Goal", 1000, 1000, "Completed", none⟩,
      ⟨2, 7, "Car", 2000, 0, "In Progress", none⟩]
     500 rfl (by decide)
     ⟨1, 7, "Savings Goal", 1000, 1000, "Completed", none⟩ (by decide) (by decide)
     ⟨2, 7, "Car", 2000, 0, "In Progress", none⟩ (by decide)⟩

/-! ### Claim C4 -/

/-- C4, counterexample: updateGoal happily lowers targetAmount below the goal's
currentAmount: a goal at 500 of 1000 updated to targetAmount 300 ends with
currentAmount 500 > targetAmount 300, so `currentAmount ≤ targetAmount` does not hold
after every operation. -/
theorem goal_amount_invariant_counterexample :
    (∀ g ∈ [(⟨1, 7, "Trip", 1000, 500, "In Progress", none⟩ : Goal)],
        0 ≤ g.currentAmount ∧ g.currentAmount ≤ g.targetAmount) ∧
    ∃ g ∈ (updateGoal 1 7 0 ⟨"Trip", 300, none, "LKR"⟩
        [⟨1, 7, "Trip", 1000, 500, "In Progress", none⟩]).2,
      ¬ g.currentAmount ≤ g.targetAmount := by decide

/-- C4 (amended): provided the currency conversion returns nonnegative amounts,
`0 ≤ currentAmount ∧ currentAmount ≤ targetAmount` is preserved for every stored goal
by addFundToGoal and by createGoal; updateGoal preserves `0 ≤ currentAmount` but can
break `currentAmount ≤ targetAmount` by lowering targetAmount. -/
theorem goal_amount_invariant_preservation
    (conv : ℤ → Option String → ℤ) (hconv : ∀ a c, 0 ≤ conv a c) :
    (∀ (id userId : Nat) (body : FundBody) (baseCurrency : String) (s : List Goal),
      (∀ g ∈ s, 0 ≤ g.currentAmount ∧ g.currentAmount ≤ g.targetAmount) →
      ∀ g2 ∈ (addFundToGoal id userId body conv baseCurrency s).state,
        0 ≤ g2.currentAmount ∧ g2.currentAmount ≤ g2.targetAmount) ∧
    (∀ (userId newId now : Nat) (b : GoalBody) (s : List Goal),
      (∀ g ∈ s, 0 ≤ g.currentAmount ∧ g.currentAmount ≤ g.targetAmount) →
      ∀ g2 ∈ (createGoal userId newId now b conv s).2,
        0 ≤ g2.currentAmount ∧ g2.currentAmount ≤ g2.targetAmount) ∧
    (∀ (id userId now : Nat) (b : GoalBody) (s : List Goal),
      (∀ g ∈ s, 0 ≤ g.currentAmount) →
      ∀ g2 ∈ (updateGoal id userId now b s).2, 0 ≤ g2.currentAmount) := by
  refine ⟨?_, ?_, ?_⟩
  · intro id userId body baseCurrency s hs g2 hg2
    rcases addFundToGoal_cases id userId body conv baseCurrency s with
      heq | ⟨a0, sav, gf, hb, h0, hsav, hfunds, hgf⟩
    · rw [heq] at hg2
      exact hs _ hg2
    · rw [addFundToGoal_success_eq id userId body conv baseCurrency s a0 hb h0 sav hsav
        hfunds gf hgf] at hg2
      have hgfI := hs _ (List.mem_of_find?_eq_some hgf)
      have hsavI := hs _ (List.mem_of_find?_eq_some hsav)
      have hc := hconv a0 body.currency
      rcases mem_saveGoal hg2 with h | h
      · split_ifs at h with h1 <;> subst h <;> constructor <;> simp only [] <;> omega
      · rcases mem_saveGoal h with h | h
        · split_ifs at h with h1 <;> subst h <;> constructor <;> simp only [] <;> omega
        · exact hs _ h
  · intro userId newId now b s hs g2 hg2
    rcases createGoal_cases userId newId now b conv s with heq | heq
    · rw [heq] at hg2
      exact hs _ hg2
    · rw [heq] at hg2
      rcases List.mem_append.mp hg2 with h | h
      · exact hs _ h
      · rcases List.mem_singleton.mp h with rfl
        exact ⟨le_refl 0, hconv _ _⟩
  · intro id userId now b s hs g2 hg2
    rcases updateGoal_cases id userId now b s with ⟨heq, _⟩ | ⟨g0, hfind, heq⟩
    · rw [heq] at hg2
      exact hs _ hg2
    · rw [heq] at hg2
      rcases mem_saveGoal hg2 with h | h
      · subst h
        have h0 := hs _ (List.mem_of_find?_eq_some hfind)
        exact h0
      · exact hs _ h

theorem goal_amount_invariant_preservation_witness :
    (∀ (a : ℤ) (c : Option String),
      (0 : ℤ) ≤ (fun (x : ℤ) (_ : Option String) => max x 0) a c) ∧
    ((∀ (id userId : Nat) (body : FundBody) (baseCurrency : String) (s : List Goal),
      (∀ g ∈ s, 0 ≤ g.currentAmount ∧ g.currentAmount ≤ g.targetAmount) →
      ∀ g2 ∈ (addFundToGoal id userId body (fun x _ => max x 0) baseCurrency s).state,
        0 ≤ g2.currentAmount ∧ g2.currentAmount ≤ g2.targetAmount) ∧
    (∀ (userId newId now : Nat) (b : GoalBody) (s : List Goal),
      (∀ g ∈ s, 0 ≤ g.currentAmount ∧ g.currentAmount ≤ g.targetAmount) →
      ∀ g2 ∈ (createGoal userId newId now b (fun x _ => max x 0) s).2,
        0 ≤ g2.currentAmount ∧ g2.currentAmount ≤ g2.targetAmount) ∧
    (∀ (id userId now : Nat) (b : GoalBody) (s : List Goal),
      (∀ g ∈ s, 0 ≤ g.currentAmount) →
      ∀ g2 ∈ (updateGoal id userId now b s).2, 0 ≤ g2.currentAmount)) :=
  ⟨fun a c => le_max_right a 0,
   goal_amount_invariant_preservation (fun x _ => max x 0) (fun a c => le_max_right a 0)⟩

/-! ### Claim C9 -/

/-- C9: the per-goal progress computed by getGoalStats
(`progress > 100 ? 100 : Math.round(progress)`) equals
`min(100, round(currentAmount / targetAmount * 100))`; at 500 of 1000 it is 50, at
2000 of 2000 it is 100, and it never exceeds 100. -/
theorem goalProgress_spec (g : Goal) :
    goalProgress g = min 100 (round (goalProgressRaw g)) ∧
    goalProgress g ≤ 100 ∧
    goalProgress ⟨3, 7, "Trip", 1000, 500, "In Progress", none⟩ = 50 ∧
    goalProgress ⟨4, 7, "Laptop", 2000, 2000, "Completed", none⟩ = 100 := by
  have h100 : round (100 : ℚ) = 100 := by norm_num [round_eq]
  have key : goalProgress g = min 100 (round (goalProgressRaw g)) := by
    unfold goalProgress
    rcases le_or_lt (goalProgressRaw g) 100 with hle | hlt
    · rw [if_neg (not_lt.mpr hle)]
      have h1 : round (goalProgressRaw g) ≤ round (100 : ℚ) := by
        rw [round_eq, round_eq]
        exact Int.floor_le_floor (by linarith)
      exact (min_eq_right (by omega)).symm
    · rw [if_pos hlt]
      have h1 : round (100 : ℚ) ≤ round (goalProgressRaw g) := by
        rw [round_eq, round_eq]
        exact Int.floor_le_floor (by linarith)
      exact (min_eq_left (by omega)).symm
  refine ⟨key, ?_, ?_, ?_⟩
  · rw [key]
    exact min_le_left _ _
  · norm_num [goalProgress, goalProgressRaw, round_eq]
  · norm_num [goalProgress, goalProgressRaw, round_eq]

/-! ### Claim C7 -/

/-- C7: setBudget answers 400 when the category is absent or inactive in the registry,
409 when a budget for (userId, category) already exists, and keeps at most one budget
per (userId, category) pair in the store. -/
theorem createBudget_spec (userId : Nat) (category : String) (amount : ℤ)
    (duration : String) (cats : List Category) (budgets : List Budget) :
    ((cats.any fun c => c.name == category && c.active) = false →
      createBudget userId category amount duration cats budgets =
        (.invalidCategory, budgets) ∧
      CreateBudgetResult.invalidCategory.statusCode = 400) ∧
    ((cats.any fun c => c.name == category && c.active) = true →
      (budgets.any fun b => b.userId == userId && b.category == category) = true →
      createBudget userId category amount duration cats budgets = (.conflict, budgets) ∧
      CreateBudgetResult.conflict.statusCode = 409) ∧
    ((∀ u c, budgetCount budgets u c ≤ 1) →
      ∀ u c,
        budgetCount (createBudget userId category amount duration cats budgets).2 u c ≤ 1) := by
  refine ⟨?_, ?_, ?_⟩
  · intro h
    unfold createBudget
    rw [if_pos (by simp [h])]
    exact ⟨rfl, rfl⟩
  · intro h1 h2
    unfold createBudget
    rw [if_neg (by simp [h1]), if_pos h2]
    exact ⟨rfl, rfl⟩
  · intro hcount u c
    unfold createBudget
    by_cases h1 : (cats.any fun cc => cc.name == category && cc.active) = true
    · by_cases h2 : (budgets.any fun bb => bb.userId == userId && bb.category == category) = true
      · rw [if_neg (by simp [h1]), if_pos h2]
        exact hcount u c
      · rw [if_neg (by simp [h1]), if_neg h2]
        unfold budgetCount
        rw [List.filter_append, List.length_append]
        by_cases hu : u = userId ∧ c = category
        · obtain ⟨rfl, rfl⟩ := hu
          have hfalse : (budgets.any fun bb => bb.userId == u && bb.category == c) = false := by
            simpa using h2
          have h0 : (budgets.filter fun bb => bb.userId == u && bb.category == c) = [] := by
            rw [List.filter_eq_nil_iff]
            intro x hx
            have hx2 := List.any_eq_false.mp hfalse x hx
            simpa using hx2
          simp [h0, List.filter_cons]
        · have hb : (userId == u && category == c) = false := by
            by_contra hbc
            rw [Bool.not_eq_false, Bool.and_eq_true] at hbc
            exact hu ⟨(beq_iff_eq.mp hbc.1).symm, (beq_iff_eq.mp hbc.2).symm⟩
          have hone :
              (List.filter (fun bb => bb.userId == u && bb.category == c)
                [(⟨userId, category, amount, duration⟩ : Budget)]).length = 0 := by
            simp [List.filter_cons, hb]
          rw [hone]
          have hc2 := hcount u c
          unfold budgetCount at hc2
          omega
    · rw [if_pos (by simpa using h1)]
      exact hcount u c

theorem createBudget_spec_witness :
    (([⟨"Food", "expense", true⟩] : List Category).any
        fun c => c.name == "Food" && c.active) = true ∧
    (([⟨7, "Food", 1000, "monthly"⟩] : List Budget).any
        fun b => b.userId == 7 && b.category == "Food") = true ∧
    (createBudget 7 "Food" 500 "monthly" [⟨"Food", "expense", true⟩]
        [⟨7, "Food", 1000, "monthly"⟩] = (.conflict, [⟨7, "Food", 1000, "monthly"⟩]) ∧
      CreateBudgetResult.conflict.statusCode = 409) :=
  ⟨by decide, by decide,
   (createBudget_spec 7 "Food" 500 "monthly" [⟨"Food", "expense", true⟩]
      [⟨7, "Food", 1000, "monthly"⟩]).2.1 (by decide) (by decide)⟩

/-! ### Claim C6 -/

/-- C6: recommendations answers NotFound exactly when the user owns no budgets, and
otherwise returns one entry per owned budget whose percentage is
round(spent / budget.amount * 100), where spent sums the user's expense-type
transactions of that category inside the duration window. -/
theorem recommendations_spec (userId : Nat) (inWindow : String → Nat → Bool)
    (budgets : List Budget) (txns : List Txn) :
    (recommendations userId inWindow budgets txns = none ↔
      budgets.filter (fun b => b.userId == userId) = []) ∧
    ∀ recs, recommendations userId inWindow budgets txns = some recs →
      recs = (budgets.filter fun b => b.userId == userId).map fun b =>
        ⟨b.category, b.amount,
         spentInCategory userId b.category (inWindow b.duration) txns,
         round ((spentInCategory userId b.category (inWindow b.duration) txns : ℚ) /
           (b.amount : ℚ) * 100)⟩ := by
  simp only [recommendations]
  constructor
  · split_ifs with h
    · simp only [List.isEmpty_iff] at h
      simp [h]
    · simp only [List.isEmpty_iff] at h
      simp [h]
  · intro recs hr
    split_ifs at hr
    exact (Option.some.inj hr).symm

theorem recommendations_spec_witness :
    recommendations 7 (fun _ _ => true) [⟨7, "Food", 1000, "monthly"⟩]
      [⟨7, "expense", 900, "Food", 5⟩] = some [⟨"Food", 1000, 900, 90⟩] ∧
    ([(⟨"Food", 1000, 900, 90⟩ : Recommendation)] =
      (([⟨7, "Food", 1000, "monthly"⟩] : List Budget).filter
          fun b => b.userId == 7).map fun b =>
        ⟨b.category, b.amount,
         spentInCategory 7 b.category ((fun _ _ => true) b.duration)
           [⟨7, "expense", 900, "Food", 5⟩],
         round ((spentInCategory 7 b.category ((fun _ _ => true) b.duration)
             [⟨7, "expense", 900, "Food", 5⟩] : ℚ) / (b.amount : ℚ) * 100)⟩) :=
  ⟨by norm_num [recommendations, spentInCategory, round_eq],
   (recommendations_spec 7 (fun _ _ => true) [⟨7, "Food", 1000, "monthly"⟩]
      [⟨7, "expense", 900, "Food", 5⟩]).2 [⟨"Food", 1000, 900, 90⟩]
      (by norm_num [recommendations, spentInCategory, round_eq])⟩

/-! ### Claim C8 -/

theorem lookupCat_cons (c0 : String) (t : CatTotals)
    (rest : List (String × CatTotals)) (c' : String) :
    lookupCat ((c0, t) :: rest) c' = if c0 = c' then t else lookupCat rest c' := by
  unfold lookupCat
  by_cases h : c0 = c'
  · rw [List.find?_cons_of_pos _ (by simpa using h), if_pos h]
  · rw [List.find?_cons_of_neg _ (by simpa using h), if_neg h]

theorem lookupCat_addToCat (l : List (String × CatTotals)) (c c' : String)
    (isIncome : Bool) (a : ℤ) :
    lookupCat (addToCat l c isIncome a) c' =
      if c' = c then
        (if isIncome then
          ⟨(lookupCat l c).income + a, (lookupCat l c).expense⟩
        else ⟨(lookupCat l c).income, (lookupCat l c).expense + a⟩)
      else lookupCat l c' := by
  induction l with
  | nil =>
    by_cases h : c' = c
    · subst h
      cases isIncome <;> simp [addToCat, lookupCat_cons, lookupCat]
    · have h' : ¬ c = c' := fun hh => h hh.symm
      cases isIncome <;> simp [addToCat, lookupCat_cons, lookupCat, h, h']
  | cons p rest ih =>
    obtain ⟨c0, t⟩ := p
    by_cases h0 : c0 = c
    · subst h0
      by_cases h : c' = c0
      · subst h
        cases isIncome <;> simp [addToCat, lookupCat_cons]
      · have h' : ¬ c0 = c' := fun hh => h hh.symm
        cases isIncome <;> simp [addToCat, lookupCat_cons, h, h']
    · by_cases h : c' = c
      · subst h
        have h1 : ¬ c0 = c' := h0
        simp [addToCat, lookupCat_cons, h0, h1, ih]
      · by_cases h2 : c0 = c'
        · subst h2
          simp [addToCat, lookupCat_cons, h0, ih, h]
        · simp [addToCat, lookupCat_cons, h0, h2, ih, h]

theorem trendsFold_totalIncome (l : List Txn) (acc : TrendsReport) :
    (l.foldl trendsStep acc).totalIncome =
      acc.totalIncome + ((l.filter fun t => t.ttype == "income").map Txn.amount).sum := by
  induction l generalizing acc with
  | nil => simp
  | cons t rest ih =>
    rw [List.foldl_cons, ih]
    by_cases h : t.ttype = "income" <;>
      simp [trendsStep, h, List.filter_cons] <;> ring

theorem trendsFold_totalExpense (l : List Txn) (acc : TrendsReport) :
    (l.foldl trendsStep acc).totalExpense =
      acc.totalExpense + ((l.filter fun t => !(t.ttype == "income")).map Txn.amount).sum := by
  induction l generalizing acc with
  | nil => simp
  | cons t rest ih =>
    rw [List.foldl_cons, ih]
    by_cases h : t.ttype = "income" <;>
      simp [trendsStep, h, List.filter_cons] <;> ring

theorem trendsFold_breakdown (l : List Txn) (acc : TrendsReport) (c : String) :
    lookupCat (l.foldl trendsStep acc).categoryBreakdown c =
      ⟨(lookupCat acc.categoryBreakdown c).income +
        ((l.filter fun t => t.ttype == "income" && t.category == c).map Txn.amount).sum,
       (lookupCat acc.categoryBreakdown c).expense +
        ((l.filter fun t => !(t.ttype == "income") && t.category == c).map Txn.amount).sum⟩ := by
  induction l generalizing acc with
  | nil => simp
  | cons t rest ih =>
    rw [List.foldl_cons, ih]
    by_cases hty : t.ttype = "income"
    · by_cases hcat : t.category = c
      · simp [trendsStep, hty, hcat, lookupCat_addToCat, List.filter_cons,
          CatTotals.mk.injEq]
        omega
      · have h' : ¬ c = t.category := fun hh => hcat hh.symm
        simp [trendsStep, hty, lookupCat_addToCat, List.filter_cons, h', hcat,
          CatTotals.mk.injEq]
    · by_cases hcat : t.category = c
      · simp [trendsStep, hty, hcat, lookupCat_addToCat, List.filter_cons,
          CatTotals.mk.injEq]
        omega
      · have h' : ¬ c = t.category := fun hh => hcat hh.symm
        simp [trendsStep, hty, lookupCat_addToCat, List.filter_cons, h', hcat,
          CatTotals.mk.injEq]

/-- C8: trends reports totalIncome as the sum of the user's income-type transaction
amounts, totalExpense as the sum of the expense-type ones,
netBalance = totalIncome - totalExpense, and a per-category breakdown carrying each
category's income and expense totals. -/
theorem trends_spec (userId : Nat) (txns : List Txn)
    (htype : ∀ t ∈ txns, t.ttype = "income" ∨ t.ttype = "expense") :
    (trends userId txns).totalIncome =
      (((txns.filter fun t => t.userId == userId).filter fun t =>
        t.ttype == "income").map Txn.amount).sum ∧
    (trends userId txns).totalExpense =
      (((txns.filter fun t => t.userId == userId).filter fun t =>
        t.ttype == "expense").map Txn.amount).sum ∧
    (trends userId txns).netBalance =
      (trends userId txns).totalIncome - (trends userId txns).totalExpense ∧
    ∀ c, lookupCat (trends userId txns).categoryBreakdown c =
      ⟨(((txns.filter fun t => t.userId == userId).filter fun t =>
          t.ttype == "income" && t.category == c).map Txn.amount).sum,
       (((txns.filter fun t => t.userId == userId).filter fun t =>
          t.ttype == "expense" && t.category == c).map Txn.amount).sum⟩ := by
  have hmem : ∀ t ∈ txns.filter (fun t => t.userId == userId),
      t.ttype = "income" ∨ t.ttype = "expense" :=
    fun t ht => htype t (List.mem_of_mem_filter ht)
  have hexp : (txns.filter fun t => t.userId == userId).filter
        (fun t => !(t.ttype == "income")) =
      (txns.filter fun t => t.userId == userId).filter
        (fun t => t.ttype == "expense") := by
    apply List.filter_congr
    intro t ht
    rcases hmem t ht with h | h <;> simp [h]
  have hexp2 : ∀ c, (txns.filter fun t => t.userId == userId).filter
        (fun t => !(t.ttype == "income") && t.category == c) =
      (txns.filter fun t => t.userId == userId).filter
        (fun t => t.ttype == "expense" && t.category == c) := by
    intro c
    apply List.filter_congr
    intro t ht
    rcases hmem t ht with h | h <;> simp [h]
  refine ⟨?_, ?_, rfl, ?_⟩
  · simp only [trends]
    rw [trendsFold_totalIncome]
    simp
  · simp only [trends]
    rw [trendsFold_totalExpense, hexp]
    simp
  · intro c
    simp only [trends]
    rw [trendsFold_breakdown, hexp2 c]
    simp [lookupCat]

theorem trends_spec_witness :
    (∀ t ∈ [(⟨7, "income", 1000, "Salary", 1⟩ : Txn), ⟨7, "expense", 500, "Food", 2⟩],
        t.ttype = "income" ∨ t.ttype = "expense") ∧
    ((trends 7 [⟨7, "income", 1000, "Salary", 1⟩,
        ⟨7, "expense", 500, "Food", 2⟩]).totalIncome =
      ((([(⟨7, "income", 1000, "Salary", 1⟩ : Txn),
          ⟨7, "expense", 500, "Food", 2⟩].filter fun t => t.userId == 7).filter fun t =>
        t.ttype == "income").map Txn.amount).sum ∧
    (trends 7 [⟨7, "income", 1000, "Salary", 1⟩,
        ⟨7, "expense", 500, "Food", 2⟩]).totalExpense =
      ((([(⟨7, "income", 1000, "Salary", 1⟩ : Txn),
          ⟨7, "expense", 500, "Food", 2⟩].filter fun t => t.userId == 7).filter fun t =>
        t.ttype == "expense").map Txn.amount).sum ∧
    (trends 7 [⟨7, "income", 1000, "Salary", 1⟩,
        ⟨7, "expense", 500, "Food", 2⟩]).netBalance =
      (trends 7 [⟨7, "income", 1000, "Salary", 1⟩,
        ⟨7, "expense", 500, "Food", 2⟩]).totalIncome -
      (trends 7 [⟨7, "income", 1000, "Salary", 1⟩,
        ⟨7, "expense", 500, "Food", 2⟩]).totalExpense ∧
    ∀ c, lookupCat (trends 7 [⟨7, "income", 1000, "Salary", 1⟩,
        ⟨7, "expense", 500, "Food", 2⟩]).categoryBreakdown c =
      ⟨((([(⟨7, "income", 1000, "Salary", 1⟩ : Txn),
          ⟨7, "expense", 500, "Food", 2⟩].filter fun t => t.userId == 7).filter fun t =>
          t.ttype == "income" && t.category == c).map Txn.amount).sum,
       ((([(⟨7, "income", 1000, "Salary", 1⟩ : Txn),
          ⟨7, "expense", 500, "Food", 2⟩].filter fun t => t.userId == 7).filter fun t =>
          t.ttype == "expense" && t.category == c).map Txn.amount).sum⟩) :=
  ⟨by decide,
   trends_spec 7 [⟨7, "income", 1000, "Salary", 1⟩, ⟨7, "expense", 500, "Food", 2⟩]
     (by decide)⟩

end FinanceMgr
